import Mathlib

/-!
Verification of `src/wroclaw_temperature.py`.

Shallow embedding choices:
* A `datetime` instant is an `Int`, counted in seconds (instants form a
  totally ordered set on which `timedelta` acts by addition; Python's
  `datetime` comparison and `timedelta` arithmetic are exact).
* `timedelta(hours=h)` is `h * 3600` seconds.
* A temperature value (`float` in the source) is modelled as `Int`:
  `slice_temperature_window` and `plot_temperature_window` only carry
  temperatures along and never compare or compute with them, so any
  inhabited type is faithful for the claims considered here.
* A function that can `raise RuntimeError(msg)` returns
  `Except String α`, with `Except.error msg` standing for the raise.
-/

namespace Wroclaw

/-- `timedelta(hours=h)` expressed in seconds. -/
def timedelta_hours (h : Int) : Int := h * 3600

/-- Embedding of `slice_temperature_window` (src/wroclaw_temperature.py,
lines 58-74).  The Python loop
`for timestamp, temperature in zip(timestamps, temperatures): if
window_start <= timestamp <= window_end: append to both outputs`
is the filter of the zipped list, split back into its two components. -/
def slice_temperature_window (timestamps : List Int) (temperatures : List Int)
    (reference : Int) (past_hours : Int) (future_hours : Int) :
    List Int × List Int :=
  let window_start := reference - timedelta_hours past_hours
  let window_end := reference + timedelta_hours future_hours
  let kept := (timestamps.zip temperatures).filter
    (fun s => decide (window_start ≤ s.1 ∧ s.1 ≤ window_end))
  (kept.map Prod.fst, kept.map Prod.snd)

/-- The sliced output viewed again as a list of (timestamp, temperature)
samples: the zip of the two components returned by
`slice_temperature_window`. -/
def sliced_pairs (timestamps : List Int) (temperatures : List Int)
    (reference : Int) (past_hours : Int) (future_hours : Int) :
    List (Int × Int) :=
  (slice_temperature_window timestamps temperatures reference past_hours future_hours).1.zip
    (slice_temperature_window timestamps temperatures reference past_hours future_hours).2

/-- The decoded `hourly` object of the JSON payload: each of the two
arrays may be absent (`payload["hourly"]` may lack the key).  The
elements of `time` are modelled after `datetime.fromisoformat` parsing,
i.e. as instants. -/
structure HourlyData where
  time : Option (List Int)
  temperature_2m : Option (List Int)
  deriving DecidableEq

/-- The decoded JSON payload, restricted to the part
`fetch_hourly_temperatures` reads: the `hourly` object may be absent. -/
structure Payload where
  hourly : Option HourlyData
  deriving DecidableEq

/-- Python truthiness of `hourly.get(key)`: `None` and the empty list
are falsy, a non-empty list is truthy. -/
def truthy : Option (List Int) → Bool
  | none => false
  | some [] => false
  | some (_ :: _) => true

/-- Embedding of the schema-checking tail of `fetch_hourly_temperatures`
(src/wroclaw_temperature.py, lines 47-55), after the JSON payload has been
decoded (the network transfer itself is outside the embedding):
`hourly = payload.get("hourly") or {}`, read `time` and
`temperature_2m`, raise
`RuntimeError("Weather API response missing hourly temperature data.")`
when `not times or not temps or len(times) != len(temps)`, otherwise
return the parsed lists. -/
def fetch_hourly_temperatures (payload : Payload) :
    Except String (List Int × List Int) :=
  let hourly := payload.hourly.getD ⟨none, none⟩
  let times := hourly.time
  let temps := hourly.temperature_2m
  if !truthy times || !truthy temps
      || (times.getD []).length ≠ (temps.getD []).length then
    Except.error "Weather API response missing hourly temperature data."
  else
    Except.ok (times.getD [], temps.getD [])

/-- Embedding of `plot_temperature_window` (src/wroclaw_temperature.py,
lines 77-90): `if not timestamps: raise RuntimeError(...)`, otherwise the
series is handed to matplotlib; the plotting side effect is modelled as
returning `Except.ok ()`. -/
def plot_temperature_window (timestamps : List Int) (temperatures : List Int) :
    Except String Unit :=
  if timestamps.isEmpty then
    Except.error "No data available for the selected time window."
  else
    Except.ok ()

/-- The schema-failure condition exactly as the spec words it for claim
C7: "the decoded response lacks the expected hourly time or temperature
fields or the two arrays have mismatched lengths".  Written from the
spec's words, to be compared against `fetch_hourly_temperatures`. -/
def spec_schema_failure (payload : Payload) : Bool :=
  let hourly := payload.hourly.getD ⟨none, none⟩
  hourly.time = none || hourly.temperature_2m = none
    || (hourly.time.getD []).length ≠ (hourly.temperature_2m.getD []).length

/-- Helper: zipping the two mapped projections of a pair list gives the
list back. -/
theorem zip_map_fst_snd_eq (l : List (Int × Int)) :
    List.zip (l.map Prod.fst) (l.map Prod.snd) = l := by
  induction l with
  | nil => rfl
  | cons a t ih => simp [List.zip_cons_cons, ih]

/-- Helper: the samples of the sliced output are exactly the filter of
the zipped input. -/
theorem sliced_pairs_eq_filter (timestamps temperatures : List Int)
    (reference past_hours future_hours : Int) :
    sliced_pairs timestamps temperatures reference past_hours future_hours
      = (timestamps.zip temperatures).filter
          (fun s => decide (reference - timedelta_hours past_hours ≤ s.1
            ∧ s.1 ≤ reference + timedelta_hours future_hours)) := by
  unfold sliced_pairs slice_temperature_window
  exact zip_map_fst_snd_eq _

/-- Helper: zipping truncates both lists to the shorter length. -/
theorem zip_eq_zip_take_min (ts temps : List Int) :
    ts.zip temps
      = (ts.take (min ts.length temps.length)).zip
          (temps.take (min ts.length temps.length)) := by
  induction ts generalizing temps with
  | nil => simp
  | cons a t ih =>
    cases temps with
    | nil => simp
    | cons b u => simp [List.zip_cons_cons, Nat.succ_min_succ, ih u]

/-- C1: for every series of samples, reference instant and non-negative
past/future durations, a sample of the input series is in the sliced
output iff its timestamp t satisfies
reference − past ≤ t ≤ reference + future. -/
theorem slice_window_membership_exact (timestamps temperatures : List Int)
    (reference past_hours future_hours : Int)
    (hp : 0 ≤ past_hours) (hf : 0 ≤ future_hours)
    (s : Int × Int) (hs : s ∈ timestamps.zip temperatures) :
    s ∈ sliced_pairs timestamps temperatures reference past_hours future_hours
      ↔ (reference - timedelta_hours past_hours ≤ s.1
          ∧ s.1 ≤ reference + timedelta_hours future_hours) := by
  rw [sliced_pairs_eq_filter, List.mem_filter]
  simp [hs]

/-- Witness for C1 at a concrete input: the sample (0, 100) of the series
[(0,100), (3600,105), (7200,110)] sliced around reference 3600 with
past = 1 hour and future = 0 hours. -/
theorem slice_window_membership_exact_witness :
    ((0 : Int), (100 : Int)) ∈ sliced_pairs [0, 3600, 7200] [100, 105, 110] 3600 1 0
      ↔ ((3600 : Int) - timedelta_hours 1 ≤ (0 : Int)
          ∧ (0 : Int) ≤ (3600 : Int) + timedelta_hours 0) :=
  slice_window_membership_exact [0, 3600, 7200] [100, 105, 110] 3600 1 0
    (by decide) (by decide) (0, 100) (by decide)

/-- C2: the sliced output, viewed as a list of samples, is a subsequence
of the zipped input series: same relative order, nothing reordered or
duplicated. -/
theorem slice_window_subsequence (timestamps temperatures : List Int)
    (reference past_hours future_hours : Int) :
    List.Sublist
      (sliced_pairs timestamps temperatures reference past_hours future_hours)
      (timestamps.zip temperatures) := by
  rw [sliced_pairs_eq_filter]
  exact List.filter_sublist _

/-- C3: slicing is idempotent for a fixed window: applying
slice_temperature_window to its own output with the same reference and
durations returns that output unchanged. -/
theorem slice_window_idempotent (timestamps temperatures : List Int)
    (reference past_hours future_hours : Int) :
    slice_temperature_window
      (slice_temperature_window timestamps temperatures reference past_hours future_hours).1
      (slice_temperature_window timestamps temperatures reference past_hours future_hours).2
      reference past_hours future_hours
      = slice_temperature_window timestamps temperatures reference past_hours future_hours := by
  have h1 := sliced_pairs_eq_filter timestamps temperatures reference past_hours future_hours
  unfold sliced_pairs at h1
  show ((((slice_temperature_window timestamps temperatures reference past_hours future_hours).1.zip
        (slice_temperature_window timestamps temperatures reference past_hours future_hours).2).filter
          (fun s => decide (reference - timedelta_hours past_hours ≤ s.1
            ∧ s.1 ≤ reference + timedelta_hours future_hours))).map Prod.fst,
      (((slice_temperature_window timestamps temperatures reference past_hours future_hours).1.zip
        (slice_temperature_window timestamps temperatures reference past_hours future_hours).2).filter
          (fun s => decide (reference - timedelta_hours past_hours ≤ s.1
            ∧ s.1 ≤ reference + timedelta_hours future_hours))).map Prod.snd)
      = slice_temperature_window timestamps temperatures reference past_hours future_hours
  rw [h1, List.filter_filter]
  simp only [Bool.and_self]
  rfl

/-- C4: the window is closed on both ends: a sample whose timestamp is
exactly reference − past or exactly reference + future (both durations
non-negative) is in the sliced output; and with past = 0 and future = 0
the output consists of exactly the samples whose timestamp equals the
reference. -/
theorem slice_window_closed_bounds (timestamps temperatures : List Int)
    (reference : Int) :
    (∀ past_hours future_hours : Int, 0 ≤ past_hours → 0 ≤ future_hours →
      ∀ s ∈ timestamps.zip temperatures,
        (s.1 = reference - timedelta_hours past_hours
          ∨ s.1 = reference + timedelta_hours future_hours) →
        s ∈ sliced_pairs timestamps temperatures reference past_hours future_hours)
    ∧ sliced_pairs timestamps temperatures reference 0 0
        = (timestamps.zip temperatures).filter (fun s => decide (s.1 = reference)) := by
  constructor
  · intro p f hp hf s hs hb
    rw [sliced_pairs_eq_filter, List.mem_filter]
    refine ⟨hs, ?_⟩
    simp only [decide_eq_true_eq]
    unfold timedelta_hours at *
    rcases hb with h | h <;> constructor <;> omega
  · rw [sliced_pairs_eq_filter]
    apply List.filter_congr
    intro s _
    simp only [decide_eq_decide, timedelta_hours]
    omega

/-- Witness for C4 at a concrete input: the sample (3600, 105) whose
timestamp equals reference − past exactly (reference 7200, past 1 hour)
is in the sliced output. -/
theorem slice_window_closed_bounds_witness :
    ((3600 : Int), (105 : Int)) ∈ sliced_pairs [3600] [105] 7200 1 0 :=
  (slice_window_closed_bounds [3600] [105] 7200).1 1 0 (by decide) (by decide)
    (3600, 105) (by decide) (Or.inl (by decide))

/-- C5: slicing an empty series returns the empty result for every
reference and durations (and the function returns a value rather than
signalling an error). -/
theorem slice_window_empty (temperatures : List Int)
    (reference past_hours future_hours : Int) :
    slice_temperature_window [] temperatures reference past_hours future_hours
      = ([], []) := rfl

/-- C6: the slicer is a total function of its inputs (it is a Lean
function, defined for every series, reference and durations); when no
sample falls in the window it returns the empty result rather than
signalling failure. -/
theorem slice_window_total_no_error (timestamps temperatures : List Int)
    (reference past_hours future_hours : Int)
    (h : ∀ s ∈ timestamps.zip temperatures,
      ¬(reference - timedelta_hours past_hours ≤ s.1
        ∧ s.1 ≤ reference + timedelta_hours future_hours)) :
    slice_temperature_window timestamps temperatures reference past_hours future_hours
      = ([], []) := by
  have hk : (timestamps.zip temperatures).filter
      (fun s => decide (reference - timedelta_hours past_hours ≤ s.1
        ∧ s.1 ≤ reference + timedelta_hours future_hours)) = [] := by
    rw [List.filter_eq_nil_iff]
    intro s hs
    simpa using h s hs
  show (((timestamps.zip temperatures).filter
      (fun s => decide (reference - timedelta_hours past_hours ≤ s.1
        ∧ s.1 ≤ reference + timedelta_hours future_hours))).map Prod.fst,
    ((timestamps.zip temperatures).filter
      (fun s => decide (reference - timedelta_hours past_hours ≤ s.1
        ∧ s.1 ≤ reference + timedelta_hours future_hours))).map Prod.snd)
    = ([], [])
  rw [hk]
  rfl

/-- Witness for C6 at a concrete input: a window entirely outside the
series range yields the empty result. -/
theorem slice_window_total_no_error_witness :
    slice_temperature_window [0] [100] 100000 0 0 = ([], []) :=
  slice_window_total_no_error [0] [100] 100000 0 0 (by decide)

/-- C9: the result is a fresh pair of lists (the embedding is pure, so
the input lists are never mutated) and each output component is at most
as long as the corresponding input, the two outputs having equal
length. -/
theorem slice_window_result_length (timestamps temperatures : List Int)
    (reference past_hours future_hours : Int) :
    (slice_temperature_window timestamps temperatures reference past_hours future_hours).1.length
        ≤ timestamps.length
    ∧ (slice_temperature_window timestamps temperatures reference past_hours future_hours).2.length
        ≤ temperatures.length
    ∧ (slice_temperature_window timestamps temperatures reference past_hours future_hours).1.length
        = (slice_temperature_window timestamps temperatures reference past_hours future_hours).2.length := by
  unfold slice_temperature_window
  simp only [List.length_map]
  refine ⟨?_, ?_, trivial⟩
  · exact le_trans (List.length_filter_le _ _)
      (by rw [List.length_zip]; exact min_le_left _ _)
  · exact le_trans (List.length_filter_le _ _)
      (by rw [List.length_zip]; exact min_le_right _ _)

/-- C10: with timestamps and temperatures lists of different lengths the
slicer pairs elements positionally and considers only the first
min(len timestamps, len temperatures) pairs: the result equals the
result on the inputs truncated to that common length. -/
theorem slice_window_truncates_to_min (timestamps temperatures : List Int)
    (reference past_hours future_hours : Int) :
    slice_temperature_window timestamps temperatures reference past_hours future_hours
      = slice_temperature_window
          (timestamps.take (min timestamps.length temperatures.length))
          (temperatures.take (min timestamps.length temperatures.length))
          reference past_hours future_hours := by
  unfold slice_temperature_window
  rw [← zip_eq_zip_take_min]

/-- C7 counterexample: a payload whose hourly object has both fields
present, both arrays empty — so the two lengths match.  The claim says a
schema failure is signalled exactly when a field is missing or the
lengths mismatch, yet the code raises here (Python treats an empty list
as falsy in `not times or not temps`). -/
theorem fetch_schema_spec_counterexample :
    fetch_hourly_temperatures ⟨some ⟨some [], some []⟩⟩
        = Except.error "Weather API response missing hourly temperature data."
    ∧ spec_schema_failure ⟨some ⟨some [], some []⟩⟩ = false := by
  constructor <;> rfl

/-- C7 amended: fetch_hourly_temperatures signals the schema failure
(one generic failure kind with a descriptive message) exactly when the
decoded response lacks the hourly time or temperature field, either
array is empty, or the two lengths mismatch; otherwise it returns the
two parsed lists, which are the payload's arrays and have equal
length. -/
theorem fetch_hourly_schema_amended (payload : Payload) :
    (fetch_hourly_temperatures payload
        = Except.error "Weather API response missing hourly temperature data."
      ↔ (spec_schema_failure payload = true
          ∨ (payload.hourly.getD ⟨none, none⟩).time = some []
          ∨ (payload.hourly.getD ⟨none, none⟩).temperature_2m = some []))
    ∧ ∀ ts vs, fetch_hourly_temperatures payload = Except.ok (ts, vs) →
        (payload.hourly.getD ⟨none, none⟩).time = some ts
        ∧ (payload.hourly.getD ⟨none, none⟩).temperature_2m = some vs
        ∧ ts.length = vs.length := by
  obtain ⟨h⟩ := payload
  cases h with
  | none =>
    constructor
    · simp [fetch_hourly_temperatures, spec_schema_failure, truthy]
    · intro ts vs hok
      simp [fetch_hourly_temperatures, truthy] at hok
  | some hd =>
    obtain ⟨t, v⟩ := hd
    constructor
    · match t, v with
      | none, _ => simp [fetch_hourly_temperatures, spec_schema_failure, truthy]
      | some [], _ => simp [fetch_hourly_temperatures, spec_schema_failure, truthy]
      | some (a :: ts), none => simp [fetch_hourly_temperatures, spec_schema_failure, truthy]
      | some (a :: ts), some [] => simp [fetch_hourly_temperatures, spec_schema_failure, truthy]
      | some (a :: ts), some (b :: vs) =>
        by_cases hlen : (a :: ts).length = (b :: vs).length
        · simp [fetch_hourly_temperatures, spec_schema_failure, truthy, hlen]
        · simp [fetch_hourly_temperatures, spec_schema_failure, truthy, hlen]
    · intro ts vs hok
      match t, v with
      | none, _ => simp [fetch_hourly_temperatures, truthy] at hok
      | some [], _ => simp [fetch_hourly_temperatures, truthy] at hok
      | some (a :: ts), none => simp [fetch_hourly_temperatures, truthy] at hok
      | some (a :: ts), some [] => simp [fetch_hourly_temperatures, truthy] at hok
      | some (a :: us), some (b :: ws) =>
        by_cases hlen : us.length = ws.length
        · simp [fetch_hourly_temperatures, truthy, hlen] at hok
          obtain ⟨h1, h2⟩ := hok
          subst h1
          subst h2
          exact ⟨rfl, rfl, by simp [hlen]⟩
        · simp [fetch_hourly_temperatures, truthy, hlen] at hok

/-- Witness for C7's amended theorem at a concrete well-formed payload:
one hourly sample, equal-length arrays, returned as-is. -/
theorem fetch_hourly_schema_amended_witness :
    ((⟨some ⟨some [0], some [100]⟩⟩ : Payload).hourly.getD ⟨none, none⟩).time = some [0]
    ∧ ((⟨some ⟨some [0], some [100]⟩⟩ : Payload).hourly.getD ⟨none, none⟩).temperature_2m
        = some [100]
    ∧ ([0] : List Int).length = ([100] : List Int).length :=
  (fetch_hourly_schema_amended ⟨some ⟨some [0], some [100]⟩⟩).2 [0] [100] rfl

/-- C8: the display step treats an empty sliced series as an error:
plot_temperature_window raises a descriptive failure on an empty
timestamp list, and plots (returns success) exactly on a non-empty
one. -/
theorem plot_empty_is_error (timestamps temperatures : List Int) :
    (timestamps = [] → plot_temperature_window timestamps temperatures
        = Except.error "No data available for the selected time window.")
    ∧ (timestamps ≠ [] → plot_temperature_window timestamps temperatures
        = Except.ok ()) := by
  constructor
  · intro h
    subst h
    rfl
  · intro h
    cases timestamps with
    | nil => exact absurd rfl h
    | cons a t => rfl

/-- Witness for C8 at concrete inputs: the empty series is rejected with
the message, a one-sample series is plotted. -/
theorem plot_empty_is_error_witness :
    plot_temperature_window [] []
        = Except.error "No data available for the selected time window."
    ∧ plot_temperature_window [0] [100] = Except.ok () :=
  ⟨(plot_empty_is_error [] []).1 rfl,
   (plot_empty_is_error [0] [100]).2 (by decide)⟩

end Wroclaw
